import Mathlib

/-!
Shallow embedding of the elevate-getNumberOfPermutations repository.

The repository is an AWS Lambda pair plus a prototype script:
  * a dispatcher handler that validates a `pills` query parameter,
    consults a cache service, computes the permutation count
    synchronously for `pills <= 43`, and defers larger requests to a
    task service;
  * a deferred worker handler that reacts to DynamoDB INSERT stream
    records, recomputes the count and writes it to the task store and
    the cache;
  * the recursive counter `getNumberOfPermutations`, shared by the
    entry points: a nested `findPermutations(sum)` walks sums upward by
    1 or 2 per day and increments a per-call accumulator
    `numberOfPermutations` each time `sum` lands exactly on the target.

External I/O (HTTP requests to the cache and defer services, the UUID
generator) is modelled by passing each call outcome as an explicit
argument; the handler bodies below mirror the control flow of the
source line by line.
-/

set_option linter.unusedVariables false

namespace ElevatePerm

/-- The per-day dose bounds from the source (`minPillsPerDay = 1`,
`maxPillsPerDay = 2`).  The `for` loop over `i in [1, 2]` in
`findPermutations` is unrolled into the two recursive calls at
`sum + 1` and `sum + 2`, executed in that order against the shared
accumulator. -/
def minPillsPerDay : Nat := 1

def maxPillsPerDay : Nat := 2

/-- Embedding of the nested `findPermutations(sum)` closure of
`getNumberOfPermutations` (dispatcher lines 96-107).  The mutable outer
variable `numberOfPermutations` is threaded as the explicit accumulator
`acc`: `sum > numberOfPills` leaves it unchanged, `sum = numberOfPills`
increments it once, and otherwise the loop body runs the recursion at
`sum + 1` first and then at `sum + 2` on the updated accumulator. -/
def findPermutations (numberOfPills sum acc : Nat) : Nat :=
  if sum > numberOfPills then acc
  else if sum = numberOfPills then acc + 1
  else findPermutations numberOfPills (sum + 2) (findPermutations numberOfPills (sum + 1) acc)
termination_by numberOfPills - sum
decreasing_by all_goals omega

/-- Embedding of `getNumberOfPermutations(numberOfPills)`: it declares
`let numberOfPermutations = 0`, runs `findPermutations(0)`, and returns
the accumulator. -/
def getNumberOfPermutations (numberOfPills : Nat) : Nat :=
  findPermutations numberOfPills 0 0

/-- The shifted Fibonacci sequence the specification names as the
closed form of the counter: 1, 1, 2, 3, 5, 8, ... -/
def fibCount : Nat → Nat
  | 0 => 1
  | 1 => 1
  | n + 2 => fibCount (n + 1) + fibCount n

theorem findPermutations_gt {numberOfPills sum acc : Nat} (h : numberOfPills < sum) :
    findPermutations numberOfPills sum acc = acc := by
  rw [findPermutations]
  simp [h]

theorem findPermutations_eq_target {numberOfPills acc : Nat} :
    findPermutations numberOfPills numberOfPills acc = acc + 1 := by
  rw [findPermutations]
  simp

theorem findPermutations_lt {numberOfPills sum acc : Nat} (h : sum < numberOfPills) :
    findPermutations numberOfPills sum acc
      = findPermutations numberOfPills (sum + 2) (findPermutations numberOfPills (sum + 1) acc) := by
  rw [findPermutations]
  have h1 : ¬ sum > numberOfPills := by omega
  have h2 : ¬ sum = numberOfPills := by omega
  simp [h1, h2]

/-- The accumulator threads through: `findPermutations` adds exactly
`fibCount r` to the accumulator when the remaining distance to the
target is `r`. -/
theorem findPermutations_add (r : Nat) :
    ∀ sum acc, findPermutations (sum + r) sum acc = acc + fibCount r := by
  induction r using Nat.strong_induction_on with
  | _ r ih =>
    match r with
    | 0 =>
      intro sum acc
      simpa [fibCount] using (@findPermutations_eq_target sum acc)
    | 1 =>
      intro sum acc
      rw [findPermutations_lt (by omega)]
      have hinner : findPermutations (sum + 1) (sum + 1) acc = acc + 1 :=
        findPermutations_eq_target
      rw [hinner, findPermutations_gt (by omega)]
      simp [fibCount]
    | r + 2 =>
      intro sum acc
      rw [findPermutations_lt (by omega)]
      have hinner : findPermutations (sum + (r + 2)) (sum + 1) acc = acc + fibCount (r + 1) := by
        have := ih (r + 1) (by omega) (sum + 1) acc
        convert this using 2
        omega
      have houter :
          findPermutations (sum + (r + 2)) (sum + 2) (acc + fibCount (r + 1))
            = acc + fibCount (r + 1) + fibCount r := by
        have := ih r (by omega) (sum + 2) (acc + fibCount (r + 1))
        convert this using 2
        omega
      rw [hinner, houter]
      simp [fibCount]
      omega

/-- The counter computes the shifted Fibonacci sequence. -/
theorem getNumberOfPermutations_eq_fibCount (n : Nat) :
    getNumberOfPermutations n = fibCount n := by
  have := findPermutations_add n 0 0
  simpa [getNumberOfPermutations] using this

/-- Every value of the shifted Fibonacci sequence is at least 1. -/
theorem fibCount_pos (n : Nat) : 1 ≤ fibCount n := by
  induction n using Nat.strong_induction_on with
  | _ n ih =>
    match n with
    | 0 => simp [fibCount]
    | 1 => simp [fibCount]
    | n + 2 =>
      have := ih (n + 1) (by omega)
      simp [fibCount]
      omega

/-- The counter never returns 0. -/
theorem getNumberOfPermutations_pos (n : Nat) : 1 ≤ getNumberOfPermutations n := by
  rw [getNumberOfPermutations_eq_fibCount]
  exact fibCount_pos n

/-- Step-indexed execution of the source recursion `findPermutations`:
`none` means the fuel ran out before the recursion returned, `some acc`
means it halted with accumulator `acc`.  Each constructor application
consumes one unit of fuel, so this structural function makes the claim
that the source recursion terminates expressible: the recursion halts
on an input exactly when some finite fuel yields `some`. -/
def findPermutationsFuel : Nat → Nat → Nat → Nat → Option Nat
  | 0, _, _, _ => none
  | fuel + 1, numberOfPills, sum, acc =>
    if sum > numberOfPills then some acc
    else if sum = numberOfPills then some (acc + 1)
    else
      match findPermutationsFuel fuel numberOfPills (sum + 1) acc with
      | none => none
      | some acc1 => findPermutationsFuel fuel numberOfPills (sum + 2) acc1

/-- With fuel exceeding the remaining distance `numberOfPills - sum`,
the step-indexed execution halts and agrees with the total embedding. -/
theorem findPermutationsFuel_complete :
    ∀ fuel numberOfPills sum acc, numberOfPills - sum < fuel →
      findPermutationsFuel fuel numberOfPills sum acc
        = some (findPermutations numberOfPills sum acc) := by
  intro fuel
  induction fuel with
  | zero => intro numberOfPills sum acc h; omega
  | succ fuel ih =>
    intro numberOfPills sum acc h
    by_cases hgt : sum > numberOfPills
    · rw [findPermutations_gt hgt]
      simp [findPermutationsFuel, hgt]
    · by_cases heq : sum = numberOfPills
      · subst heq
        rw [findPermutations_eq_target]
        simp [findPermutationsFuel]
      · have hlt : sum < numberOfPills := by omega
        rw [findPermutations_lt hlt]
        have h1 : numberOfPills - (sum + 1) < fuel := by omega
        have h2 : numberOfPills - (sum + 2) < fuel := by omega
        simp only [findPermutationsFuel, if_neg hgt, if_neg heq]
        rw [ih numberOfPills (sum + 1) acc h1]
        exact ih numberOfPills (sum + 2) _ h2

/-! ## Dispatcher (first entry point of the bundled source)

The handler takes the parsed `pills` parameter as an integer (the
transport layer runs `parseInt` on the query string; `NaN` and missing
parameters are rejected with the same 400 response as an out-of-range
integer, so integers cover every value that reaches the range check).
Each outbound HTTP call is modelled by its outcome, passed as an
argument: the cache GET outcome, the cache POST outcome, the UUID the
`uuid/v1` generator produced, and the defer-service POST outcome. -/

/-- Outcome of the HTTP round trip inside `getFromCache`:
whether the request callback received an error, the response status
code, whether the body parsed as JSON, and the value of the
`permutations` field when the parsed body has one. -/
structure CacheGetResponse where
  networkError : Bool
  statusCode : Nat
  parseOk : Bool
  permutations : Option Nat
deriving DecidableEq

/-- Embedding of `getFromCache` (dispatcher lines 117-136).  It rejects
on a request error, a non-200 status or a parse failure; otherwise it
resolves `body.permutations` when that field is truthy (a number is
truthy exactly when it is nonzero) and resolves `false` — here `none` —
otherwise. -/
def getFromCache (r : CacheGetResponse) : Except String (Option Nat) :=
  if r.networkError then .error "Error: Internal Error Making GET Request to Cache Service"
  else if r.statusCode ≠ 200 then .error "Error: GET Request to Cache Service failed"
  else if ¬ r.parseOk then .error "Error: Error parsing response from cache"
  else
    match r.permutations with
    | some v => if v ≠ 0 then .ok (some v) else .ok none
    | none => .ok none

/-- Embedding of `deferTask` (dispatcher lines 170-184): it draws `id`
from the UUID generator, POSTs to the defer service, and resolves the
id on a 200 response; a request error or non-200 status rejects. -/
def deferTask (id : String) (net : Except String Unit) : Except String String :=
  match net with
  | .ok _ => .ok id
  | .error e => .error e

/-- The four outcomes a dispatcher invocation can end in, as seen by
the caller: the 400 validation response, the 200 completed response
carrying the count, the 202 deferred response carrying the task id, the
500 internal-error response when deferral fails, and the fall-through
where `deferTask` resolved a falsy id and no callback fires. -/
inductive HandlerResult where
  | invalid
  | completed (permutations : Nat)
  | deferredTask (id : String)
  | internalError
  | noResponse
deriving DecidableEq

/-- Which collaborators a dispatcher invocation touched: the cache GET,
the counter, the cache POST, and the defer-service POST. -/
structure DispatchEffects where
  cacheGetCalled : Bool
  counterCalled : Bool
  cachePutCalled : Bool
  deferCalled : Bool
deriving DecidableEq

/-- Embedding of the dispatcher `exports.handler` (lines 42-88) after
query-string parsing.  Control flow, in source order: reject `pills`
outside `[1, 47]`; await `getFromCache` and return 200 on a truthy
result, treating a rejection like a miss (the catch block only logs);
for `pills <= 43` compute the count, return 200, then attempt the cache
write whose outcome cannot alter the already-delivered response; for
larger `pills` await `deferTask` and return 202 with the task id when
it is truthy, falling through silently when it is not, and return the
500 internal-error response when `deferTask` rejects; the cache POST
outcome `putOutcome` arrives after the 200 response is delivered and
its rejection is only logged, so it is deliberately unread.
`handlerAfterMiss` is the code below the cache check, reached from the
miss, falsy-hit and cache-failure paths alike. -/
def handlerAfterMiss (pills : Int) (uuid : String) (deferNet : Except String Unit) :
    HandlerResult × DispatchEffects :=
  if pills ≤ 43 then
    (.completed (getNumberOfPermutations pills.toNat), ⟨true, true, true, false⟩)
  else
    match deferTask uuid deferNet with
    | .ok taskId =>
      if taskId ≠ "" then (.deferredTask taskId, ⟨true, false, false, true⟩)
      else (.noResponse, ⟨true, false, false, true⟩)
    | .error _ => (.internalError, ⟨true, false, false, true⟩)

def handler (pills : Int) (cacheResult : Except String (Option Nat))
    (putOutcome : Except String Unit) (uuid : String) (deferNet : Except String Unit) :
    HandlerResult × DispatchEffects :=
  if pills < 1 ∨ pills > 47 then (.invalid, ⟨false, false, false, false⟩)
  else
    match cacheResult with
    | .ok (some v) =>
      if v ≠ 0 then (.completed v, ⟨true, false, false, false⟩)
      else handlerAfterMiss pills uuid deferNet
    | .ok none => handlerAfterMiss pills uuid deferNet
    | .error _ => handlerAfterMiss pills uuid deferNet

/-! ## Deferred worker (third entry point of the bundled source)

The bundle contains two revisions of the worker.  The first revision
does not compile as JavaScript (its `updateTask` redeclares the `id`
parameter with `const id = UUID()` and `UUID` is never imported), so
the second revision — identical control flow with those slips fixed —
is the one embedded.  A DynamoDB stream record is abstracted to the
fields the worker reads: the event name, the task id
(`record.dynamodb.Keys.id.S`) and the pill total
(`record.dynamodb.NewImage.pills.N`).  The worker performs writes
only; each write is recorded rather than its HTTP outcome modelled,
because every `updateTask` / `saveToCache` rejection is caught and
merely logged, so outcomes cannot influence the control flow. -/

/-- A DynamoDB stream record as the worker reads it. -/
structure StreamRecord where
  eventName : String
  id : String
  pills : Nat
deriving DecidableEq

/-- The `permutations` field `updateTask` puts in its PUT body:
`permutations ? permutations.toString() : '0'` — the decimal string of
the value when the argument is present and truthy (nonzero), the string
"0" when it is absent (the IN_PROGRESS call passes no third argument)
or zero. -/
def updateTaskPermutationsField (permutations : Option Nat) : String :=
  match permutations with
  | some v => if v ≠ 0 then toString v else "0"
  | none => "0"

/-- One `updateTask` PUT: the task id in the URL, and the status and
permutations fields of the body. -/
structure TaskWrite where
  id : String
  status : String
  permutations : String
deriving DecidableEq

/-- One `saveToCache` POST: the pills key and the permutations value
(sent as decimal strings on the wire; the numbers they encode are kept
here). -/
structure CacheWrite where
  pills : Nat
  permutations : Nat
deriving DecidableEq

/-- Embedding of the worker body for a single stream record (worker
lines 370-397): a non-INSERT event is ignored; an INSERT event triggers,
in order, the IN_PROGRESS task update, the counter run on the record
pill total, the COMPLETE task update carrying the computed count, and
the cache write of the (pills, count) pair. -/
def processRecord (record : StreamRecord) : List TaskWrite × List CacheWrite :=
  if record.eventName = "INSERT" then
    let numberOfPermutations := getNumberOfPermutations record.pills
    ([⟨record.id, "IN_PROGRESS", updateTaskPermutationsField none⟩,
      ⟨record.id, "COMPLETE", updateTaskPermutationsField (some numberOfPermutations)⟩],
     [⟨record.pills, numberOfPermutations⟩])
  else ([], [])

/-- Embedding of the worker `exports.handler` over a whole event batch:
the records are processed independently and their writes collected. -/
def workerHandler (records : List StreamRecord) : List TaskWrite × List CacheWrite :=
  ((records.map processRecord).map Prod.fst |>.flatten,
   (records.map processRecord).map Prod.snd |>.flatten)

/-! ## Sequential invocation model for the counter

In the dispatcher the accumulator `numberOfPermutations` is a `let`
inside `getNumberOfPermutations`, created anew on every call.  Two
invocations run in sequence within one handler run are therefore two
independent evaluations, each starting its accumulator at 0; the pair
below makes that sequencing explicit. -/
def counterTwiceSequential (n : Nat) : Nat × Nat :=
  let firstCallResult := findPermutations n 0 0
  let secondCallResult := findPermutations n 0 0
  (firstCallResult, secondCallResult)

/-- If `getFromCache` resolves a value (rather than `false`), that
value is nonzero: the `if (body.permutations)` truthiness guard filters
zero out. -/
theorem getFromCache_some_ne_zero {resp : CacheGetResponse} {v : Nat}
    (h : getFromCache resp = .ok (some v)) : v ≠ 0 := by
  unfold getFromCache at h
  split_ifs at h
  cases hp : resp.permutations with
  | none => rw [hp] at h; simp at h
  | some w =>
    rw [hp] at h
    by_cases hw : w = 0
    · subst hw
      simp at h
    · simp [hw] at h
      omega

/-- C1: the Counter (the dispatcher getNumberOfPermutations) returns
the Fibonacci-shifted count: 1 at 0 and at 1, the sum of its results
at n - 1 and n - 2 for every n ≥ 2, and in particular 2, 3, 5, 8 at
n = 2, 3, 4, 5. -/
theorem counter_fib_law :
    getNumberOfPermutations 0 = 1 ∧ getNumberOfPermutations 1 = 1 ∧
    (∀ n : Nat, 2 ≤ n →
      getNumberOfPermutations n
        = getNumberOfPermutations (n - 1) + getNumberOfPermutations (n - 2)) ∧
    getNumberOfPermutations 2 = 2 ∧ getNumberOfPermutations 3 = 3 ∧
    getNumberOfPermutations 4 = 5 ∧ getNumberOfPermutations 5 = 8 := by
  refine ⟨?_, ?_, ?_, ?_, ?_, ?_, ?_⟩
  · rw [getNumberOfPermutations_eq_fibCount]; decide
  · rw [getNumberOfPermutations_eq_fibCount]; decide
  · intro n hn
    obtain ⟨m, rfl⟩ : ∃ m, n = m + 2 := ⟨n - 2, by omega⟩
    rw [getNumberOfPermutations_eq_fibCount, getNumberOfPermutations_eq_fibCount,
      getNumberOfPermutations_eq_fibCount]
    simp [fibCount]
  · rw [getNumberOfPermutations_eq_fibCount]; decide
  · rw [getNumberOfPermutations_eq_fibCount]; decide
  · rw [getNumberOfPermutations_eq_fibCount]; decide
  · rw [getNumberOfPermutations_eq_fibCount]; decide

/-- Witness for C1 at n = 2. -/
theorem counter_fib_law_witness :
    2 ≤ 2 ∧ getNumberOfPermutations 2
      = getNumberOfPermutations (2 - 1) + getNumberOfPermutations (2 - 2) :=
  ⟨by decide, counter_fib_law.2.2.1 2 (by decide)⟩

/-- C8: the Counter is pure and deterministic — its accumulator is
initialised to 0 inside each call, so two invocations in sequence
within one run return equal values, both equal to the single-call
result; the range hypotheses mirror the claim scope. -/
theorem counter_deterministic (n : Nat) (h1 : 1 ≤ n) (h2 : n ≤ 47) :
    (counterTwiceSequential n).1 = (counterTwiceSequential n).2 ∧
    (counterTwiceSequential n).1 = getNumberOfPermutations n := by
  exact ⟨rfl, rfl⟩

/-- Witness for C8 at n = 5. -/
theorem counter_deterministic_witness :
    1 ≤ 5 ∧ 5 ≤ 47 ∧
      ((counterTwiceSequential 5).1 = (counterTwiceSequential 5).2 ∧
       (counterTwiceSequential 5).1 = getNumberOfPermutations 5) :=
  ⟨by decide, by decide, counter_deterministic 5 (by decide) (by decide)⟩

/-- C9: the source recursion over the running sum terminates for every
non-negative total: the step-indexed execution of `findPermutations`
halts with fuel `numberOfPills + 1` from every starting sum — the
measure `numberOfPills - sum` is well-founded — and agrees with the
total embedding. -/
theorem counter_terminates (numberOfPills sum acc : Nat) :
    findPermutationsFuel (numberOfPills + 1) numberOfPills sum acc
      = some (findPermutations numberOfPills sum acc) :=
  findPermutationsFuel_complete (numberOfPills + 1) numberOfPills sum acc (by omega)

/-- C10: a computed count is never 0, so the truthiness tests in
`getFromCache` and the dispatcher never reclassify a genuinely stored
count as a miss: a clean cache response holding a stored count resolves
exactly that count, and the dispatcher returns it as a completed hit
without calling the counter. -/
theorem counter_never_zero_truthy (n : Nat) :
    1 ≤ getNumberOfPermutations n ∧
    getFromCache ⟨false, 200, true, some (getNumberOfPermutations n)⟩
      = .ok (some (getNumberOfPermutations n)) ∧
    (∀ (pills : Int) (putOutcome : Except String Unit) (uuid : String)
        (deferNet : Except String Unit), 1 ≤ pills → pills ≤ 47 →
      handler pills (.ok (some (getNumberOfPermutations n))) putOutcome uuid deferNet
        = (.completed (getNumberOfPermutations n), ⟨true, false, false, false⟩)) := by
  have hpos := getNumberOfPermutations_pos n
  refine ⟨hpos, ?_, ?_⟩
  · simp only [getFromCache]
    norm_num
    omega
  · intro pills putOutcome uuid deferNet h1 h2
    have hv : ¬ (pills < 1 ∨ pills > 47) := by omega
    simp only [handler, if_neg hv]
    rw [if_pos (by omega : getNumberOfPermutations n ≠ 0)]

/-- Witness for C10 at n = 3, pills = 3. -/
theorem counter_never_zero_truthy_witness :
    (1 : Int) ≤ 3 ∧ (3 : Int) ≤ 47 ∧
      handler 3 (.ok (some (getNumberOfPermutations 3))) (.ok ()) "u" (.ok ())
        = (.completed (getNumberOfPermutations 3), ⟨true, false, false, false⟩) :=
  ⟨by decide, by decide,
    (counter_never_zero_truthy 3).2.2 3 (.ok ()) "u" (.ok ()) (by decide) (by decide)⟩

/-- C4: a total outside [1, 47] yields the 400 Invalid response, with
no cache lookup, no counter run, no cache write and no task creation,
whatever the collaborator outcomes would have been. -/
theorem dispatcher_rejects_out_of_domain (pills : Int)
    (cacheResult : Except String (Option Nat)) (putOutcome : Except String Unit)
    (uuid : String) (deferNet : Except String Unit)
    (h : pills < 1 ∨ 47 < pills) :
    handler pills cacheResult putOutcome uuid deferNet
      = (.invalid, ⟨false, false, false, false⟩) := by
  simp only [handler, if_pos h]

/-- Witness for C4 at pills = 0 and pills = 48. -/
theorem dispatcher_rejects_out_of_domain_witness :
    ((0 : Int) < 1 ∨ 47 < (0 : Int)) ∧
    handler 0 (.ok none) (.ok ()) "u" (.ok ()) = (.invalid, ⟨false, false, false, false⟩) ∧
    ((48 : Int) < 1 ∨ 47 < (48 : Int)) ∧
    handler 48 (.ok none) (.ok ()) "u" (.ok ()) = (.invalid, ⟨false, false, false, false⟩) :=
  ⟨by decide,
   dispatcher_rejects_out_of_domain 0 (.ok none) (.ok ()) "u" (.ok ()) (by decide),
   by decide,
   dispatcher_rejects_out_of_domain 48 (.ok none) (.ok ()) "u" (.ok ()) (by decide)⟩

/-- C3: on a cache miss, a total in [1, 43] is answered synchronously
with the computed count (200 Completed, counter run, cache write
attempted), while a total in [44, 47] triggers no synchronous
computation and, when the defer POST succeeds, yields the 202 Deferred
response carrying the nonempty UUID as task id. -/
theorem dispatcher_threshold (pills : Int) (putOutcome : Except String Unit)
    (uuid : String) (deferNet : Except String Unit) :
    (1 ≤ pills → pills ≤ 43 →
      handler pills (.ok none) putOutcome uuid deferNet
        = (.completed (getNumberOfPermutations pills.toNat), ⟨true, true, true, false⟩)) ∧
    (44 ≤ pills → pills ≤ 47 → uuid ≠ "" → deferNet = .ok () →
      handler pills (.ok none) putOutcome uuid deferNet
        = (.deferredTask uuid, ⟨true, false, false, true⟩) ∧ uuid ≠ "") := by
  constructor
  · intro h1 h2
    have hv : ¬ (pills < 1 ∨ pills > 47) := by omega
    simp only [handler, if_neg hv, handlerAfterMiss, if_pos (show pills ≤ 43 by omega)]
  · intro h1 h2 hu hnet
    subst hnet
    have hv : ¬ (pills < 1 ∨ pills > 47) := by omega
    refine ⟨?_, hu⟩
    simp only [handler, if_neg hv, handlerAfterMiss,
      if_neg (show ¬ pills ≤ 43 by omega), deferTask]
    rw [if_pos hu]

/-- Witness for C3 at pills = 43 and pills = 44. -/
theorem dispatcher_threshold_witness :
    ((1 : Int) ≤ 43 ∧ (43 : Int) ≤ 43 ∧
      handler 43 (.ok none) (.ok ()) "a-task-uuid" (.ok ())
        = (.completed (getNumberOfPermutations ((43 : Int)).toNat), ⟨true, true, true, false⟩)) ∧
    ((44 : Int) ≥ 44 ∧ (44 : Int) ≤ 47 ∧ "a-task-uuid" ≠ "" ∧
      (handler 44 (.ok none) (.ok ()) "a-task-uuid" (.ok ())
        = (.deferredTask "a-task-uuid", ⟨true, false, false, true⟩) ∧ "a-task-uuid" ≠ "")) :=
  ⟨⟨by decide, by decide,
    (dispatcher_threshold 43 (.ok ()) "a-task-uuid" (.ok ())).1 (by decide) (by decide)⟩,
   ⟨by decide, by decide, by decide,
    (dispatcher_threshold 44 (.ok ()) "a-task-uuid" (.ok ())).2 (by decide) (by decide)
      (by decide) rfl⟩⟩

/-- C5: with the total in domain and `getFromCache` resolving a stored
count, the dispatcher returns exactly that value as a 200 Completed
response and never runs the counter. -/
theorem dispatcher_returns_cache_hit (pills : Int) (resp : CacheGetResponse) (v : Nat)
    (putOutcome : Except String Unit) (uuid : String) (deferNet : Except String Unit)
    (h1 : 1 ≤ pills) (h2 : pills ≤ 47) (hget : getFromCache resp = .ok (some v)) :
    handler pills (getFromCache resp) putOutcome uuid deferNet
      = (.completed v, ⟨true, false, false, false⟩) := by
  have hv : ¬ (pills < 1 ∨ pills > 47) := by omega
  have hne := getFromCache_some_ne_zero hget
  rw [hget]
  simp only [handler, if_neg hv]
  rw [if_pos hne]

/-- Witness for C5: pills = 7 with a clean cache response storing 5. -/
theorem dispatcher_returns_cache_hit_witness :
    (1 : Int) ≤ 7 ∧ (7 : Int) ≤ 47 ∧
    getFromCache ⟨false, 200, true, some 5⟩ = .ok (some 5) ∧
    handler 7 (getFromCache ⟨false, 200, true, some 5⟩) (.ok ()) "u" (.ok ())
      = (.completed 5, ⟨true, false, false, false⟩) :=
  ⟨by decide, by decide, rfl,
   dispatcher_returns_cache_hit 7 ⟨false, 200, true, some 5⟩ 5 (.ok ()) "u" (.ok ())
     (by decide) (by decide) rfl⟩

/-- C6: for a total in [1, 43] a cache failure is invisible: a rejected
cache GET is handled exactly like a miss and the dispatcher still
returns the computed count, and the cache POST outcome cannot change
the response, which was delivered before the write. -/
theorem dispatcher_cache_failure_invisible (pills : Int) (e : String)
    (putA putB : Except String Unit) (uuid : String) (deferNet : Except String Unit)
    (h1 : 1 ≤ pills) (h2 : pills ≤ 43) :
    handler pills (.error e) putA uuid deferNet
      = (.completed (getNumberOfPermutations pills.toNat), ⟨true, true, true, false⟩) ∧
    handler pills (.error e) putA uuid deferNet
      = handler pills (.ok none) putA uuid deferNet ∧
    (handler pills (.error e) putA uuid deferNet).1
      = (handler pills (.error e) putB uuid deferNet).1 := by
  have hv : ¬ (pills < 1 ∨ pills > 47) := by omega
  have hmiss : handler pills (.error e) putA uuid deferNet
      = handlerAfterMiss pills uuid deferNet := by
    simp only [handler, if_neg hv]
  have hcomp : handlerAfterMiss pills uuid deferNet
      = (.completed (getNumberOfPermutations pills.toNat), ⟨true, true, true, false⟩) := by
    simp only [handlerAfterMiss, if_pos (show pills ≤ 43 by omega)]
  refine ⟨hmiss.trans hcomp, ?_, ?_⟩
  · rw [hmiss]
    simp only [handler, if_neg hv]
  · rw [hmiss, hcomp]
    simp only [handler, if_neg hv, hcomp]

/-- Witness for C6 at pills = 10 with distinct cache POST outcomes. -/
theorem dispatcher_cache_failure_invisible_witness :
    (1 : Int) ≤ 10 ∧ (10 : Int) ≤ 43 ∧
    (handler 10 (.error "cache down") (.ok ()) "u" (.ok ())
      = (.completed (getNumberOfPermutations ((10 : Int)).toNat), ⟨true, true, true, false⟩) ∧
     handler 10 (.error "cache down") (.ok ()) "u" (.ok ())
      = handler 10 (.ok none) (.ok ()) "u" (.ok ()) ∧
     (handler 10 (.error "cache down") (.ok ()) "u" (.ok ())).1
      = (handler 10 (.error "cache down") (.error "cache write down") "u" (.ok ())).1) :=
  ⟨by decide, by decide,
   dispatcher_cache_failure_invisible 10 "cache down" (.ok ()) (.error "cache write down")
     "u" (.ok ()) (by decide) (by decide)⟩

/-- C7: for a total in [44, 47] on a cache miss, a rejected defer POST
surfaces as the 500 internal-error response. -/
theorem dispatcher_defer_failure_internal (pills : Int) (e : String)
    (putOutcome : Except String Unit) (uuid : String)
    (h1 : 44 ≤ pills) (h2 : pills ≤ 47) :
    handler pills (.ok none) putOutcome uuid (.error e)
      = (.internalError, ⟨true, false, false, true⟩) := by
  have hv : ¬ (pills < 1 ∨ pills > 47) := by omega
  simp only [handler, if_neg hv, handlerAfterMiss,
    if_neg (show ¬ pills ≤ 43 by omega), deferTask]

/-- Witness for C7 at pills = 45. -/
theorem dispatcher_defer_failure_internal_witness :
    (44 : Int) ≤ 45 ∧ (45 : Int) ≤ 47 ∧
    handler 45 (.ok none) (.ok ()) "u" (.error "defer down")
      = (.internalError, ⟨true, false, false, true⟩) :=
  ⟨by decide, by decide,
   dispatcher_defer_failure_internal 45 "defer down" (.ok ()) "u" (by decide) (by decide)⟩

/-- C2: an INSERT stream record with task id `record.id` and total
`record.pills` makes the worker update that same task to COMPLETE with
the counter result in the permutations field, and independently write
the (total, count) pair to the cache; the IN_PROGRESS update precedes
both. -/
theorem worker_insert_completes_task (record : StreamRecord)
    (h : record.eventName = "INSERT") :
    processRecord record
      = ([⟨record.id, "IN_PROGRESS", "0"⟩,
          ⟨record.id, "COMPLETE", toString (getNumberOfPermutations record.pills)⟩],
         [⟨record.pills, getNumberOfPermutations record.pills⟩]) := by
  have hpos := getNumberOfPermutations_pos record.pills
  simp only [processRecord, if_pos h, updateTaskPermutationsField]
  rw [if_pos (show getNumberOfPermutations record.pills ≠ 0 by omega)]

/-- Witness for C2 on the record (INSERT, task-1, 2). -/
theorem worker_insert_completes_task_witness :
    (StreamRecord.mk "INSERT" "task-1" 2).eventName = "INSERT" ∧
    processRecord ⟨"INSERT", "task-1", 2⟩
      = ([⟨"task-1", "IN_PROGRESS", "0"⟩,
          ⟨"task-1", "COMPLETE", toString (getNumberOfPermutations 2)⟩],
         [⟨2, getNumberOfPermutations 2⟩]) :=
  ⟨rfl, worker_insert_completes_task ⟨"INSERT", "task-1", 2⟩ rfl⟩

end ElevatePerm
